import Mathlib

/-!
Verification of the framed streaming transport of `pyvideochat`
(module `pyvideochat/hosting.py`), as a shallow embedding in Lean 4.

The embedding models:
* the byte stream a socket delivers (`NetState`, `recv`),
* the length-prefix codec `struct.pack("Q", ·)` / `struct.unpack("Q", ·)`
  (`packQ`, `unpackQ`),
* the mutable attributes of `_Socket` objects (`Sock`),
* `_Socket.send`, `_Socket.receive`, `_Socket.is_connected`, `_Socket.close`,
* `Server.connect`, `Client.connect` and the two pump loops
  `Server.start`, `Client.start`.

Python exceptions are explicit (`PyExc`, `Except`), Python's `None` return is
`Option.none`, and loops that the source cannot bound are fueled: a `none` /
`.diverge` result of a fueled function for every fuel value models an
infinite loop.  The pickle serializer is an external collaborator of the
repository, so it is a function parameter (`dumps` / `loads`).
-/

/-- A video frame after `pickle` has been applied is just bytes; the frame
value itself is opaque to the transport, so we represent it by the byte list
that pickling it would produce. -/
abbrev Frame := List Nat

/-- The incoming byte stream of a connected TCP socket.  `buf` holds the bytes
the peer has sent and not yet consumed; once `buf` is empty the peer has
closed and every further `recv` returns the empty packet.  `sched` says, per
successive `recv` call, how many bytes the kernel has made available to that
call (the transport may deliver fewer bytes than requested); after `sched`
runs out, `recv` simply delivers up to the requested amount. -/
structure NetState where
  buf : List Nat
  sched : List Nat
deriving DecidableEq, Repr

/-- `socket.recv(req)`: returns at most `req` bytes from the front of the
stream; the empty packet models a closed connection (or nothing readable). -/
def recv (req : Nat) (net : NetState) : List Nat × NetState :=
  match net.sched with
  | [] => (net.buf.take req, ⟨net.buf.drop req, []⟩)
  | a :: rest =>
    let k := min req a
    (net.buf.take k, ⟨net.buf.drop k, rest⟩)

/-- `struct.pack("Q", n)`: the 8-byte little-endian encoding of `n`
(CPython's native order on the supported platforms). -/
def packQ (n : Nat) : List Nat :=
  [n % 256, n / 256 % 256, n / 65536 % 256, n / 16777216 % 256,
   n / 4294967296 % 256, n / 1099511627776 % 256,
   n / 281474976710656 % 256, n / 72057594037927936 % 256]

/-- `struct.unpack("Q", bs)`: requires exactly 8 bytes (otherwise CPython
raises `struct.error`, modelled by `none`) and decodes little-endian. -/
def unpackQ (bs : List Nat) : Option Nat :=
  if bs.length = 8 then
    some (bs.foldr (fun b acc => b + 256 * acc) 0)
  else none

/-- The attributes of a `_Socket` (hosting.py, `_Socket.__init__` and the
code that mutates them).  `hasVideo` records whether the attribute
`self.video` exists (it is created only when `capture_video` is true);
`clientSocketSet` records whether the attribute `self.client_socket` exists;
`socketTypeSet` records whether the attribute `self.socket_type` exists —
the source reads it (hosting.py lines 30, 138, 238) but no statement in the
package ever assigns it, so on every object the constructors build it is
absent. -/
structure Sock where
  captureVideo : Bool
  hasVideo : Bool
  clientSocketSet : Bool
  socketClosed : Bool
  timedOut : Bool
  socketTypeSet : Bool
deriving DecidableEq, Repr

/-- `_Socket.__init__`: `self.video` is created exactly when `capture_video`
is true; no `client_socket` attribute yet; `timed_out` starts false; no
`socket_type` attribute (nothing ever assigns one). -/
def initSock (captureVideo : Bool) : Sock :=
  { captureVideo := captureVideo
    hasVideo := captureVideo
    clientSocketSet := false
    socketClosed := false
    timedOut := false
    socketTypeSet := false }

/-- `Server.__init__`: a plain `_Socket` (`server_socket` aliases `socket`). -/
def serverInit (captureVideo : Bool) : Sock := initSock captureVideo

/-- `Client.__init__`: additionally sets `self.client_socket = self.socket`. -/
def clientInit (captureVideo : Bool) : Sock :=
  { initSock captureVideo with clientSocketSet := true }

/-- Python exceptions that the embedded code can raise. -/
inductive PyExc where
  | typeError
  | attributeError
  | socketError
deriving DecidableEq, Repr

/-- `_Socket.is_connected` (hosting.py lines 115-127): literally
`if self.client_socket: return True else: return False`; a socket object is
always truthy, so this only tests that the attribute was ever assigned. -/
def is_connected (s : Sock) : Bool :=
  if s.clientSocketSet then true else false

/-- `_Socket.close` (hosting.py lines 129-138): `self.socket.close()` (a
no-op on an already-closed socket), then `Video.stop()` inside
`try ... except: pass`, then — outside any handler —
`_Logger.text(f"{self.socket_type} stopped!")`, which raises
`AttributeError` whenever the `socket_type` attribute is missing (and it
always is: nothing in the package assigns it).  The first component is the
attribute state the object keeps — the socket close has already happened —
and the second is the exception escaping to the caller, if any.  No
attribute other than the socket's closed flag changes; in particular
`client_socket` is untouched. -/
def close (s : Sock) : Sock × Option PyExc :=
  let s2 := { s with socketClosed := true }
  if s.socketTypeSet then (s2, none) else (s2, some .attributeError)

/-- The header loop of `_Socket.receive` (hosting.py lines 93-97):
`while len(data) < payload_size: packet = recv(8); if not packet: break;
data += packet`.  Every iteration either breaks on an empty packet or grows
`data` by at least one byte, so starting from the empty `data` the loop runs
at most eight iterations before `len(data) >= 8`; the structural fuel of 8
used at the call site therefore realizes the unbounded `while` exactly. -/
def loop1 : Nat → List Nat → NetState → List Nat × NetState
  | 0, data, net => (data, net)
  | fuel + 1, data, net =>
    if data.length < 8 then
      let p := recv 8 net
      if p.1.isEmpty then (data, p.2)
      else loop1 fuel (data ++ p.1) p.2
    else (data, net)

/-- The payload loop of `_Socket.receive` (hosting.py lines 101-104):
`while len(data) < msg_size: data += recv(msg_size); if not data: break`.
Note the source tests `not data` — the whole accumulated buffer — not the
packet just read, so the loop need not terminate; `none` for every fuel
models that infinite loop. -/
def loop2 : Nat → Nat → List Nat → NetState → Option (List Nat × NetState)
  | 0, _, _, _ => none
  | fuel + 1, msgSize, data, net =>
    if data.length < msgSize then
      let p := recv msgSize net
      let data2 := data ++ p.1
      if data2.isEmpty then some (data2, p.2)
      else loop2 fuel msgSize data2 p.2
    else some (data, net)

/-- `_Socket.receive` (hosting.py lines 76-113).  The whole body sits in a
bare `try ... except: pass`, so on any failure the Python function falls off
the end and returns `None` — modelled by the inner `Option.none`; a success
returns the tuple `(True, frame)`.  The outer `Option` is the fuel monad of
`loop2`: an outer `none` for every fuel means the call never returns.
`loads` is `pickle.loads` (external collaborator); `none` models a raised
unpickling error.  The display step `self.video.show(frame)` raises
`AttributeError` when `capture_video` was false (no `self.video`), which the
bare except also swallows; likewise `self.client_socket.recv` raises if the
`client_socket` attribute was never assigned. -/
def receive (loads : List Nat → Option Frame) (s : Sock) (showFlag : Bool)
    (fuel : Nat) (net : NetState) :
    Option (Option (Bool × Option Frame) × NetState) :=
  if s.clientSocketSet then
    let r1 := loop1 8 [] net
    match unpackQ (r1.1.take 8) with
    | none => some (none, r1.2)
    | some msgSize =>
      match loop2 fuel msgSize (r1.1.drop 8) r1.2 with
      | none => none
      | some r2 =>
        match loads (r2.1.take msgSize) with
        | none => some (none, r2.2)
        | some frame =>
          if showFlag && !s.hasVideo then some (none, r2.2)
          else some (some (true, some frame), r2.2)
  else some (none, net)

/-- A `pickle.loads` instantiation for concrete runs: every byte list
deserializes, to itself. -/
def loadsId : List Nat → Option Frame := fun bs => some bs

/-- The `try` block of `_Socket.send` (hosting.py lines 65-74): resize (the
source's `Video.resize` returns its input unchanged on failure, so it is the
identity here), `pickle.dumps`, build `message = pack("Q", len) + payload`,
optionally display (raising `AttributeError` when `self.video` is missing),
then `sendall` (raising a socket error when the connection fails, modelled
by `sendallOk = false`).  `.ok` carries the bytes put on the wire. -/
def sendBody (dumps : Frame → List Nat) (f : Frame) (showFlag hasVideo sendallOk : Bool) :
    Except PyExc (List Nat) :=
  let serialized := dumps f
  let message := packQ serialized.length ++ serialized
  if showFlag && !hasVideo then .error .attributeError
  else if !sendallOk then .error .socketError
  else .ok message

/-- `_Socket.send` (hosting.py lines 41-74).  The capturing dispatch: with no
frame argument and `capture_video` on, pull a frame from the camera
(`videoRead`); with an explicit frame, send that; otherwise do nothing.  The
whole send path is wrapped in `try ... except: pass`, so an error inside it
is swallowed and the caller sees a normal `None` return either way —
`.ok` with the delivered bytes (empty when nothing was sent). -/
def send (dumps : Frame → List Nat) (s : Sock) (videoRead : Bool × Frame)
    (frame : Option Frame) (showFlag sendallOk : Bool) :
    Except PyExc (List Nat) :=
  let c :=
    if s.captureVideo && frame.isNone then videoRead
    else if frame.isSome then (true, frame.getD [])
    else (false, [])
  if c.1 then
    match sendBody dumps c.2 showFlag s.hasVideo sendallOk with
    | .ok wire => .ok wire
    | .error _ => .ok []
  else .ok []

/-- Outcome of a `connect` call.  `done st sleeps attempts` is a normal
return: the final attribute state, the number of `time.sleep(1)` calls
performed, and the number of accept/connect attempts made.  `diverge sleeps`
is a fuel-exhausted run that already performed `sleeps` one-second sleeps:
holding for every fuel, it models the unbounded blocking-mode recursion.
`raised` is an exception propagating to the caller (only the re-raised bind
error in `Server.connect`). -/
inductive ConnOut where
  | diverge (sleeps : Nat)
  | raised
  | done (st : Sock) (sleeps : Nat) (attempts : Nat)
deriving DecidableEq, Repr

/-- `Server.connect` (hosting.py lines 165-201).  `blocking` is
`timeout == 0`.  When `self.timed_out` is still false the socket is bound
(`bindOk = false` models a bind error, which the source re-raises); the
recursive retry path sets `timed_out` first, so re-binding is skipped there.
`accept k` says whether the `k`-th `server_socket.accept()` attempt
succeeds; success assigns `self.client_socket`.  On failure: `timed_out`
becomes true, and in blocking mode the method sleeps one second and calls
itself, while in timeout mode it just logs and returns. -/
def serverConnect (bindOk : Bool) (accept : Nat → Bool) (timeout : Nat) :
    Nat → Nat → Sock → ConnOut
  | _, 0, _ => .diverge 0
  | k, fuel + 1, s =>
    if !s.timedOut && !bindOk then .raised
    else if accept k then .done { s with clientSocketSet := true } 0 1
    else
      let s2 := { s with timedOut := true }
      if timeout = 0 then
        match serverConnect bindOk accept timeout (k + 1) fuel s2 with
        | .diverge slp => .diverge (slp + 1)
        | .raised => .raised
        | .done st slp att => .done st (slp + 1) (att + 1)
      else .done s2 0 1

/-- `Client.connect` (hosting.py lines 240-275).  Same retry structure as
`Server.connect`, without the bind step; `self.client_socket` was already
assigned in `Client.__init__`, so a successful `connect` leaves the
attribute state unchanged (it returns `True`, which no caller uses). -/
def clientConnect (connectOk : Nat → Bool) (timeout : Nat) :
    Nat → Nat → Sock → ConnOut
  | _, 0, _ => .diverge 0
  | k, fuel + 1, s =>
    if connectOk k then .done s 0 1
    else
      let s2 := { s with timedOut := true }
      if timeout = 0 then
        match clientConnect connectOk timeout (k + 1) fuel s2 with
        | .diverge slp => .diverge (slp + 1)
        | .raised => .raised
        | .done st slp att => .done st (slp + 1) (att + 1)
      else .done s2 0 1

/-- Outcome of a pump loop run: fuel ran out while still looping, an
exception escaped the loop, or the `while` condition went false. -/
inductive PumpOut where
  | diverge
  | raised (e : PyExc)
  | exited
deriving DecidableEq, Repr

/-- `Server.start` (hosting.py lines 203-210):
`while self.is_connected(): receiving, _ = self.receive(show=True);
if receiving: self.send(show=False)`.  `recvOut i` is what the `i`-th
`receive` call returns (`none` = the Python `None` a failed receive yields,
`some f` = the tuple `(True, f)`).  Unpacking `None` into `receiving, _`
raises `TypeError`, which nothing in `start` catches.  The second component
counts completed send calls. -/
def serverStart (recvOut : Nat → Option Frame) : Nat → Nat → Sock → PumpOut × Nat
  | _, 0, _ => (.diverge, 0)
  | i, fuel + 1, s =>
    if is_connected s then
      match recvOut i with
      | none => (.raised .typeError, 0)
      | some _ =>
        let r := serverStart recvOut (i + 1) fuel s
        (r.1, r.2 + 1)
    else (.exited, 0)

/-- `Client.start` (hosting.py lines 277-285):
`while self.is_connected(): self.send(show=False);
receiving, _ = self.receive(show=True); if not receiving: break`.
The send precedes the receive, so the cycle of the first failed receive has
already sent one frame; the failed receive returns `None` and the unpacking
raises `TypeError` (the `break` is reachable only for a tuple whose first
component is falsy, which `receive` never produces). -/
def clientStart (recvOut : Nat → Option Frame) : Nat → Nat → Sock → PumpOut × Nat
  | _, 0, _ => (.diverge, 0)
  | i, fuel + 1, s =>
    if is_connected s then
      match recvOut i with
      | none => (.raised .typeError, 1)
      | some _ =>
        let r := clientStart recvOut (i + 1) fuel s
        (r.1, r.2 + 1)
    else (.exited, 0)

/-- One public operation on an endpoint whose attribute state we track
(`send` and `receive` never assign any of the tracked attributes). -/
inductive Op where
  | close
  | send
  | receive
  | serverConn (bindOk : Bool) (accept : Nat → Bool) (timeout fuel : Nat)
  | clientConn (connectOk : Nat → Bool) (timeout fuel : Nat)

/-- The attribute-state effect of one operation; a `connect` that does not
return normally leaves whatever state the object had (the recursion mutates
`self` in place, but for the preservation claim only normal returns are
observable states, so the conservative choice is the pre-state).  For
`close`, the `AttributeError` it raises escapes to the caller but the
object keeps the post-close attribute state, so the effect is the first
component. -/
def applyOp (s : Sock) : Op → Sock
  | .close => (close s).1
  | .send => s
  | .receive => s
  | .serverConn bindOk accept timeout fuel =>
    match serverConnect bindOk accept timeout 0 fuel s with
    | .done st _ _ => st
    | _ => s
  | .clientConn connectOk timeout fuel =>
    match clientConnect connectOk timeout 0 fuel s with
    | .done st _ _ => st
    | _ => s

/-! ### Helper lemmas -/

theorem packQ_length (n : Nat) : (packQ n).length = 8 := rfl

theorem unpackQ_packQ (n : Nat) (h : n < 18446744073709551616) :
    unpackQ (packQ n) = some n := by
  have e2 : n / 65536 = n / 256 / 256 := by rw [Nat.div_div_eq_div_mul]
  have e3 : n / 16777216 = n / 65536 / 256 := by rw [Nat.div_div_eq_div_mul]
  have e4 : n / 4294967296 = n / 16777216 / 256 := by rw [Nat.div_div_eq_div_mul]
  have e5 : n / 1099511627776 = n / 4294967296 / 256 := by rw [Nat.div_div_eq_div_mul]
  have e6 : n / 281474976710656 = n / 1099511627776 / 256 := by
    rw [Nat.div_div_eq_div_mul]
  have e7 : n / 72057594037927936 = n / 281474976710656 / 256 := by
    rw [Nat.div_div_eq_div_mul]
  simp only [unpackQ, packQ, List.foldr, List.length, if_pos rfl, if_true,
    Option.some.injEq]
  omega

theorem packQ_ne_nil (n : Nat) : packQ n ≠ [] := by simp [packQ]

theorem loop1_done (fuel : Nat) (data : List Nat) (net : NetState)
    (h : ¬ data.length < 8) : loop1 fuel data net = (data, net) := by
  cases fuel <;> simp [loop1, h]

/-- When the whole 8-byte prefix is available to the first `recv(8)`, the
header loop consumes exactly those 8 bytes. -/
theorem loop1_full (l x : List Nat) (hl : l.length = 8) :
    loop1 8 [] ⟨l ++ x, []⟩ = (l, ⟨x, []⟩) := by
  have hne : l.isEmpty = false := by
    rw [List.isEmpty_eq_false]
    intro e
    rw [e] at hl
    simp at hl
  rw [show (8 : Nat) = 7 + 1 from rfl]
  simp only [loop1, List.length_nil, recv, List.take_left' hl, List.drop_left' hl, hne,
    Bool.false_eq_true, if_false, List.nil_append, Nat.zero_lt_succ, if_true]
  exact loop1_done 7 l _ (by omega)

/-- When the stream holds `payload ++ trailing` and `recv` hands over up to
the requested amount, the payload loop takes exactly the payload. -/
theorem loop2_exact (fuel n : Nat) (payload trailing : List Nat)
    (hn : payload.length = n) (hf : 2 ≤ fuel) :
    loop2 fuel n [] ⟨payload ++ trailing, []⟩ = some (payload, ⟨trailing, []⟩) := by
  obtain ⟨g, rfl⟩ : ∃ g, fuel = g + 2 := ⟨fuel - 2, by omega⟩
  rcases n with _ | m
  · have hp : payload = [] := List.length_eq_zero.mp hn
    subst hp
    simp [loop2]
  · have hpos : ([] : List Nat).length < m + 1 := by simp
    have hne : (payload.isEmpty) = false := by
      rw [List.isEmpty_eq_false]
      intro e
      rw [e] at hn
      simp at hn
    have hstop : ¬ payload.length < m + 1 := by omega
    simp only [loop2, hpos, if_true, recv, List.take_left' hn, List.drop_left' hn,
      List.nil_append, hne, Bool.false_eq_true, if_false, hstop]

/-- Once the peer has closed (`buf = []`) while the accumulated `data` is
nonempty and still short of `msg_size`, every iteration of the payload loop
appends the empty packet and retests `not data` on the unchanged nonempty
buffer: the loop never exits, whatever the fuel. -/
theorem loop2_stuck (msgSize : Nat) (data : List Nat) (hne : data ≠ [])
    (hlt : data.length < msgSize) :
    ∀ fuel, loop2 fuel msgSize data ⟨[], []⟩ = none := by
  intro fuel
  induction fuel with
  | zero => rfl
  | succ g ih =>
    have hstep : loop2 (g + 1) msgSize data ⟨[], []⟩ = loop2 g msgSize data ⟨[], []⟩ := by
      have hiE : data.isEmpty = false := by
        rw [List.isEmpty_eq_false]
        exact hne
      simp only [loop2, hlt, if_true, recv, List.take_nil, List.drop_nil, List.append_nil,
        hiE, Bool.false_eq_true, if_false]
    rw [hstep, ih]

/-- In blocking mode with every attempt failing, `Server.connect` never
returns: each unit of fuel is one failed attempt followed by one
`time.sleep(1)`. -/
theorem serverConnect_allfail (accept : Nat → Bool) (h : ∀ k, accept k = false) :
    ∀ fuel k s, serverConnect true accept 0 k fuel s = .diverge fuel := by
  intro fuel
  induction fuel with
  | zero => intro k s; rfl
  | succ g ih =>
    intro k s
    simp only [serverConnect, Bool.not_true, Bool.and_false, Bool.false_eq_true, if_false,
      h k, if_pos rfl, ih (k + 1)]
    rfl

/-- In blocking mode with every attempt failing, `Client.connect` never
returns. -/
theorem clientConnect_allfail (connectOk : Nat → Bool) (h : ∀ k, connectOk k = false) :
    ∀ fuel k s, clientConnect connectOk 0 k fuel s = .diverge fuel := by
  intro fuel
  induction fuel with
  | zero => intro k s; rfl
  | succ g ih =>
    intro k s
    simp only [clientConnect, h k, Bool.false_eq_true, if_false, if_pos rfl, ih (k + 1)]
    rfl

/-- No path of `Server.connect` ever clears `client_socket`. -/
theorem serverConnect_keeps (bindOk : Bool) (accept : Nat → Bool) (timeout : Nat) :
    ∀ fuel k s st slp att, serverConnect bindOk accept timeout k fuel s = .done st slp att →
      s.clientSocketSet = true → st.clientSocketSet = true := by
  intro fuel
  induction fuel with
  | zero =>
    intro k s st slp att h
    simp [serverConnect] at h
  | succ g ih =>
    intro k s st slp att h hcs
    simp only [serverConnect] at h
    by_cases hb : (!s.timedOut && !bindOk) = true
    · simp [hb] at h
    · rw [Bool.not_eq_true] at hb
      rw [hb] at h
      simp only [Bool.false_eq_true, if_false] at h
      by_cases hacc : accept k = true
      · rw [hacc, if_pos rfl] at h
        obtain ⟨h1, -, -⟩ := ConnOut.done.inj h
        rw [← h1]
      · rw [Bool.not_eq_true] at hacc
        rw [hacc] at h
        simp only [Bool.false_eq_true, if_false] at h
        by_cases htz : timeout = 0
        · rw [if_pos htz] at h
          rcases hrec : serverConnect bindOk accept timeout (k + 1) g
              { s with timedOut := true } with slp' | _ | ⟨st', slp', att'⟩ <;>
            rw [hrec] at h
          · exact absurd h (by simp)
          · exact absurd h (by simp)
          · obtain ⟨h1, -, -⟩ := ConnOut.done.inj h
            rw [← h1]
            exact ih (k + 1) _ st' slp' att' hrec (by simpa using hcs)
        · rw [if_neg htz] at h
          obtain ⟨h1, -, -⟩ := ConnOut.done.inj h
          rw [← h1]
          simpa using hcs

/-- No path of `Client.connect` ever clears `client_socket`. -/
theorem clientConnect_keeps (connectOk : Nat → Bool) (timeout : Nat) :
    ∀ fuel k s st slp att, clientConnect connectOk timeout k fuel s = .done st slp att →
      s.clientSocketSet = true → st.clientSocketSet = true := by
  intro fuel
  induction fuel with
  | zero =>
    intro k s st slp att h
    simp [clientConnect] at h
  | succ g ih =>
    intro k s st slp att h hcs
    simp only [clientConnect] at h
    by_cases hacc : connectOk k = true
    · rw [hacc, if_pos rfl] at h
      obtain ⟨h1, -, -⟩ := ConnOut.done.inj h
      rw [← h1]
      exact hcs
    · rw [Bool.not_eq_true] at hacc
      rw [hacc] at h
      simp only [Bool.false_eq_true, if_false] at h
      by_cases htz : timeout = 0
      · rw [if_pos htz] at h
        rcases hrec : clientConnect connectOk timeout (k + 1) g
            { s with timedOut := true } with slp' | _ | ⟨st', slp', att'⟩ <;>
          rw [hrec] at h
        · exact absurd h (by simp)
        · exact absurd h (by simp)
        · obtain ⟨h1, -, -⟩ := ConnOut.done.inj h
          rw [← h1]
          exact ih (k + 1) _ st' slp' att' hrec (by simpa using hcs)
      · rw [if_neg htz] at h
        obtain ⟨h1, -, -⟩ := ConnOut.done.inj h
        rw [← h1]
        simpa using hcs

/-- No tracked operation clears `client_socket`. -/
theorem applyOp_keeps (op : Op) (s : Sock) (h : s.clientSocketSet = true) :
    (applyOp s op).clientSocketSet = true := by
  cases op with
  | close =>
    cases hst : s.socketTypeSet <;> simpa [applyOp, close, hst] using h
  | send => simpa [applyOp] using h
  | receive => simpa [applyOp] using h
  | serverConn bindOk accept timeout fuel =>
    simp only [applyOp]
    rcases hrec : serverConnect bindOk accept timeout 0 fuel s with slp | _ | ⟨st, slp, att⟩
    · exact h
    · exact h
    · exact serverConnect_keeps bindOk accept timeout fuel 0 s st slp att hrec h
  | clientConn connectOk timeout fuel =>
    simp only [applyOp]
    rcases hrec : clientConnect connectOk timeout 0 fuel s with slp | _ | ⟨st, slp, att⟩
    · exact h
    · exact h
    · exact clientConnect_keeps connectOk timeout fuel 0 s st slp att hrec h

/-! ### Claim theorems -/

/-- C1.  The claim says every `receiveFrame` failure yields the pair
`(False, None)`.  On the code this is false: the bare `except: pass` makes
the failing call fall off the end of the function, so Python returns the
bare value `None` (the inner `Option.none` here), not the tuple
`(False, None)` (which would be `some (false, none)`).  At the concrete
failing input — the peer closes before any byte arrives, so the first
`recv` returns empty, the header is short, and `struct.unpack` raises —
`receive` terminates without an exception but with `None`, contradicting
its own docstring ("returns ... (False, None) otherwise") and the spec. -/
theorem receive_failure_returns_pyNone :
    receive loadsId (clientInit true) true 3 ⟨[], []⟩
      = some ((none : Option (Bool × Option Frame)), (⟨[], []⟩ : NetState))
    ∧ some ((none : Option (Bool × Option Frame)), (⟨[], []⟩ : NetState))
      ≠ some (some (false, (none : Option Frame)), (⟨[], []⟩ : NetState)) := by
  exact ⟨rfl, by decide⟩

/-- C2.  The claim says a stream that closes after the 8-byte length prefix
but before `length` payload bytes makes `receive` terminate with a no-frame
result.  On the code this is false: with the prefix announcing 100 bytes but
only 4 payload bytes delivered before the close, the payload loop retests
`if not data` on the nonempty accumulated buffer instead of the empty packet
just read, so it spins forever — `receive` returns `none` (nontermination)
for every fuel bound, for every deserializer and `show` flag. -/
theorem receive_hangs_on_truncated_payload :
    ∀ (loads : List Nat → Option Frame) (showFlag : Bool) (fuel : Nat),
      receive loads (clientInit true) showFlag fuel ⟨packQ 100 ++ [1, 2, 3, 4], []⟩
        = none := by
  intro loads showFlag fuel
  have hstuck : ∀ g, loop2 g 100 [1, 2, 3, 4] ⟨[], []⟩ = none :=
    loop2_stuck 100 [1, 2, 3, 4] (by decide) (by decide)
  cases fuel with
  | zero => rfl
  | succ g =>
    have hun : receive loads (clientInit true) showFlag (g + 1)
          ⟨packQ 100 ++ [1, 2, 3, 4], []⟩
        = match loop2 g 100 [1, 2, 3, 4] ⟨[], []⟩ with
          | none => none
          | some r2 =>
            match loads (r2.1.take 100) with
            | none => some (none, r2.2)
            | some frame =>
              if showFlag && !(clientInit true).hasVideo then some (none, r2.2)
              else some (some (true, some frame), r2.2) := rfl
    rw [hun, hstuck g]

/-- C4.  A connect/accept attempt with `timeout > 0` that fails returns
control to the caller after exactly one attempt (attempt counter 1), with no
sleep and no internal retry, and with `timed_out` set — for `Server.connect`
and `Client.connect` alike, from any attribute state and any remaining
fuel. -/
theorem timeout_mode_single_attempt
    (timeout fuel : Nat) (s : Sock) (accept connectOk : Nat → Bool)
    (ht : timeout ≠ 0) (ha : accept 0 = false) (hc : connectOk 0 = false) :
    serverConnect true accept timeout 0 (fuel + 1) s
      = .done { s with timedOut := true } 0 1
    ∧ clientConnect connectOk timeout 0 (fuel + 1) s
      = .done { s with timedOut := true } 0 1 := by
  constructor
  · simp only [serverConnect, Bool.not_true, Bool.and_false, Bool.false_eq_true, if_false,
      ha, ht]
  · simp only [clientConnect, hc, Bool.false_eq_true, if_false, ht]

/-- Witness for C4 at a concrete input: timeout 5, first attempt fails. -/
theorem timeout_mode_single_attempt_witness :
    serverConnect true (fun _ => false) 5 0 1 (serverInit true)
      = .done { serverInit true with timedOut := true } 0 1
    ∧ clientConnect (fun _ => false) 5 0 1 (clientInit true)
      = .done { clientInit true with timedOut := true } 0 1 :=
  ⟨(timeout_mode_single_attempt 5 0 (serverInit true) (fun _ => false) (fun _ => false)
      (by decide) rfl rfl).1,
   (timeout_mode_single_attempt 5 0 (clientInit true) (fun _ => false) (fun _ => false)
      (by decide) rfl rfl).2⟩

/-- C5.  A connect/accept attempt with `timeout == 0` whose attempts all
fail never returns to the caller: for every fuel bound the run is still
retrying, having made `fuel` attempts separated by `fuel` one-second
`time.sleep(1)` calls — for `Server.connect` and `Client.connect` alike. -/
theorem blocking_mode_retries_forever
    (accept connectOk : Nat → Bool) (s : Sock)
    (ha : ∀ k, accept k = false) (hc : ∀ k, connectOk k = false) :
    ∀ fuel, serverConnect true accept 0 0 fuel s = .diverge fuel
      ∧ clientConnect connectOk 0 0 fuel s = .diverge fuel := by
  intro fuel
  exact ⟨serverConnect_allfail accept ha fuel 0 s,
    clientConnect_allfail connectOk hc fuel 0 s⟩

/-- Witness for C5 at a concrete input: every attempt fails, three units of
fuel observe three attempts and three sleeps on each endpoint. -/
theorem blocking_mode_retries_forever_witness :
    serverConnect true (fun _ => false) 0 0 3 (serverInit true) = .diverge 3
    ∧ clientConnect (fun _ => false) 0 0 3 (clientInit true) = .diverge 3 :=
  ⟨(blocking_mode_retries_forever (fun _ => false) (fun _ => false) (serverInit true)
      (fun _ => rfl) (fun _ => rfl) 3).1,
   (blocking_mode_retries_forever (fun _ => false) (fun _ => false) (clientInit true)
      (fun _ => rfl) (fun _ => rfl) 3).2⟩

/-- C6.  The claim says `close` closes the socket, is idempotent, and
completes without raising.  On the code this is false: after
`self.socket.close()` and the guarded `Video.stop()`, line 138 formats
`self.socket_type` — an attribute nothing in the package ever assigns — so
every `close()` call raises `AttributeError` to its caller; only the
socket-closing effect persists on the object.  Evaluated at a freshly
constructed connected client: the first call does record the closed socket
but raises, and a second call on the resulting state raises again (instead
of "succeeding" as the claim requires). -/
theorem close_always_raises :
    close (clientInit true)
      = ({ clientInit true with socketClosed := true }, some PyExc.attributeError)
    ∧ (close (close (clientInit true)).1).2 = some PyExc.attributeError :=
  ⟨rfl, rfl⟩

/-- C7.  With the socket failing (`sendallOk = false`), `send` still returns
normally — `.ok` — with nothing delivered, for every frame, serializer,
capture configuration and `show` flag: the `try ... except: pass` around the
send path swallows the socket error, and the caller gets the same bare
`None` return as in the success case, hence no indication of the loss. -/
theorem send_swallows_socket_errors :
    ∀ (dumps : Frame → List Nat) (s : Sock) (videoRead : Bool × Frame)
      (frame : Option Frame) (showFlag : Bool),
      send dumps s videoRead frame showFlag false = .ok [] := by
  intro dumps s videoRead frame showFlag
  by_cases hC : (showFlag && !s.hasVideo) = true <;>
    simp only [send, sendBody, Bool.not_false, if_true, hC, Bool.not_eq_true] <;>
    split <;> simp_all

/-- C8.  The claim says the server pump loop's only exit condition is the
connection no longer reporting connected, a receive failure alone never
ending it.  On the code this is false: a failed `receive` returns `None`,
and `Server.start`'s `receiving, _ = self.receive(show=True)` then raises
`TypeError` out of the loop on the very first failure — here evaluated at a
connected endpoint whose peer has stopped delivering frames.  The client
half of the claim does hold in effect: `Client.start` also leaves the loop
at the first receive failure (after having sent the frame of that cycle,
count 1), though through the same `TypeError` rather than the written
`break`. -/
theorem pump_loops_crash_on_receive_failure :
    serverStart (fun _ => none) 0 3 (clientInit true) = (.raised .typeError, 0)
    ∧ clientStart (fun _ => none) 0 3 (clientInit true) = (.raised .typeError, 1) :=
  ⟨rfl, rfl⟩

/-- C3, counterexample.  The stream holds exactly the 10-byte encoded
message for payload `[9, 9]` followed by three unrelated trailing bytes, but
the kernel hands the first `recv(8)` only 7 bytes.  The header loop's second
`recv(8)` then reads across the message boundary, so the decode succeeds yet
consumes all 13 bytes: the final stream buffer is empty instead of holding
the trailing `[7, 7, 7]`, refuting "decoding consumes exactly 8 + N bytes,
leaving any unrelated trailing bytes in place". -/
theorem receive_overconsumes_trailing_bytes :
    receive loadsId (clientInit true) false 1
        ⟨[2, 0, 0, 0, 0, 0, 0, 0, 9, 9] ++ [7, 7, 7], [7, 8]⟩
      = some (some (true, some [9, 9]), ⟨[], []⟩)
    ∧ (⟨[], []⟩ : NetState).buf ≠ [7, 7, 7] :=
  ⟨rfl, by decide⟩

/-- C3, amended.  For every serialized payload of size `N` the encoded
message produced by `send` is exactly the 8-byte length prefix followed by
the payload, hence `8 + N` bytes; and when the transport delivers the bytes
aligned with the decoder's requests (the whole prefix available to the first
`recv(8)`, payload reads not crossing the message boundary — the
default-schedule stream), decoding consumes exactly those `8 + N` bytes and
leaves the unrelated trailing bytes in the stream.  Without that alignment
the decoder may over-consume (see the counterexample). -/
theorem framing_exactness_aligned
    (dumps : Frame → List Nat) (loads : List Nat → Option Frame)
    (s : Sock) (f fr : Frame) (videoRead : Bool × Frame)
    (payload trailing : List Nat) (n fuel : Nat)
    (hn : payload.length = n) (hsmall : n < 18446744073709551616)
    (hload : loads payload = some fr) (hcs : s.clientSocketSet = true)
    (hfuel : 2 ≤ fuel) :
    send dumps s videoRead (some f) false true
      = .ok (packQ (dumps f).length ++ dumps f)
    ∧ (packQ (dumps f).length ++ dumps f).length = 8 + (dumps f).length
    ∧ receive loads s false fuel ⟨packQ n ++ (payload ++ trailing), []⟩
      = some (some (true, some fr), ⟨trailing, []⟩) := by
  refine ⟨?_, ?_, ?_⟩
  · simp [send, sendBody]
  · simp only [List.length_append, packQ_length]
  · have hl8 : (packQ n).length = 8 := packQ_length n
    have hl1 : loop1 8 [] ⟨packQ n ++ (payload ++ trailing), []⟩
        = (packQ n, ⟨payload ++ trailing, []⟩) :=
      loop1_full (packQ n) (payload ++ trailing) hl8
    have htake8 : (packQ n).take 8 = packQ n := by
      rw [← hl8, List.take_length]
    have hup : unpackQ (packQ n) = some n := unpackQ_packQ n hsmall
    have hdrop8 : (packQ n).drop 8 = [] := by
      rw [← hl8, List.drop_length]
    have hl2 : loop2 fuel n [] ⟨payload ++ trailing, []⟩
        = some (payload, ⟨trailing, []⟩) :=
      loop2_exact fuel n payload trailing hn hfuel
    have htaken : payload.take n = payload := by
      rw [← hn, List.take_length]
    simp only [receive, hcs, if_true, hl1, htake8, hup, hdrop8, hl2, htaken, hload,
      Bool.false_and, Bool.false_eq_true, if_false]

/-- Witness for C3's amended theorem at a concrete input: payload
`[5, 6, 7]` (N = 3), trailing `[7, 7, 7]`; the message sent for frame
`[9, 9]` is its 10 bytes, and the decode consumes exactly the 11 bytes of
the received message, leaving the trailing bytes. -/
theorem framing_exactness_aligned_witness :
    send (fun f => f) (clientInit true) (true, []) (some [9, 9]) false true
      = Except.ok [2, 0, 0, 0, 0, 0, 0, 0, 9, 9]
    ∧ receive loadsId (clientInit true) false 2
        ⟨packQ 3 ++ ([5, 6, 7] ++ [7, 7, 7]), []⟩
      = some (some (true, some [5, 6, 7]), ⟨[7, 7, 7], []⟩) := by
  have h := framing_exactness_aligned (fun f => f) loadsId (clientInit true)
    [9, 9] [5, 6, 7] (true, []) [5, 6, 7] [7, 7, 7] 3 2 rfl (by decide) rfl rfl
    (by decide)
  exact ⟨h.1, h.2.2⟩

/-- C9.  Once `client_socket` is assigned (at `Client.__init__`, or by a
successful `accept` in `Server.connect`), no sequence of the endpoint's
operations — `close` included — ever clears it, so `is_connected` keeps
returning `True` forever, even on a closed socket. -/
theorem client_socket_never_unset (ops : List Op) (s : Sock)
    (h : s.clientSocketSet = true) :
    (ops.foldl applyOp s).clientSocketSet = true
    ∧ is_connected (ops.foldl applyOp s) = true := by
  have key : ∀ (l : List Op) (t : Sock), t.clientSocketSet = true →
      (l.foldl applyOp t).clientSocketSet = true := by
    intro l
    induction l with
    | nil => intro t ht; simpa using ht
    | cons op rest ih =>
      intro t ht
      exact ih (applyOp t op) (applyOp_keeps op t ht)
  refine ⟨key ops s h, ?_⟩
  simp [is_connected, key ops s h]

/-- Witness for C9 at a concrete input: a connected client closed twice
still reports connected. -/
theorem client_socket_never_unset_witness :
    (([Op.close, Op.close].foldl applyOp (clientInit true)).clientSocketSet = true)
    ∧ is_connected ([Op.close, Op.close].foldl applyOp (clientInit true)) = true :=
  client_socket_never_unset [Op.close, Op.close] (clientInit true) rfl

/-- C10.  On an endpoint built with `capture_video = false` there is no
`self.video` attribute, so the display step of `receive(show=True)` raises
`AttributeError`, the bare except swallows it, and every terminating
`receive` call yields the failure value `None` — whatever the stream holds,
even a complete well-formed message. -/
theorem receive_show_fails_without_video :
    ∀ (loads : List Nat → Option Frame) (fuel : Nat) (net : NetState)
      (v : Option (Bool × Option Frame)) (n2 : NetState),
      receive loads (clientInit false) true fuel net = some (v, n2) → v = none := by
  intro loads fuel net v n2 h
  simp only [receive, clientInit, initSock, if_true, Bool.not_false, Bool.and_self] at h
  rcases hu : unpackQ ((loop1 8 [] net).1.take 8) with _ | msgSize <;>
    simp only [hu, Option.some.injEq, Prod.mk.injEq] at h
  · exact h.1.symm
  · rcases hl : loop2 fuel msgSize ((loop1 8 [] net).1.drop 8) (loop1 8 [] net).2
        with _ | r2 <;> simp only [hl] at h
    · exact Option.noConfusion h
    · rcases hld : loads (r2.1.take msgSize) with _ | frame <;>
        simp only [hld, Option.some.injEq, Prod.mk.injEq] at h
      · exact h.1.symm
      · exact h.1.symm

/-- Witness for C10 at a concrete input: the stream carries one complete
well-formed 11-byte message, yet `receive(show=True)` on a no-video
endpoint returns the failure value. -/
theorem receive_show_fails_without_video_witness :
    receive loadsId (clientInit false) true 2 ⟨packQ 3 ++ [1, 2, 3], []⟩
      = some ((none : Option (Bool × Option Frame)), (⟨[], []⟩ : NetState))
    ∧ (none : Option (Bool × Option Frame)) = none :=
  ⟨by decide, receive_show_fails_without_video loadsId 2 ⟨packQ 3 ++ [1, 2, 3], []⟩
    none ⟨[], []⟩ (by decide)⟩

